import Mathlib

/-!
Verification of the orbital-visualization core of `go-solar-system`.

The Go source is shallowly embedded: `float64` arithmetic is modelled by `ℝ`,
`time.Time` values by real numbers counting days since the J2000.0 epoch
(January 1, 2000, 12:00 UTC), `rune` by `Char`, `[][]rune` grids by
`List (List Char)`, and Go operations that can panic (slice indexing) or
produce non-finite floats (division by zero) return `Option`, with `none`
marking the panic / non-finite outcome.  Conversions `int(x)` and `math.Mod`
truncate toward zero exactly as in Go.
-/

namespace SolarSim

open Real

/-- Go's `int(x)` conversion for `float64`: truncation toward zero. -/
noncomputable def goInt (r : ℝ) : ℤ :=
  if 0 ≤ r then ⌊r⌋ else ⌈r⌉

/-- Go's `math.Mod x y = x - y * trunc (x / y)`: the result keeps the sign of
the dividend `x`, unlike the mathematical remainder. -/
noncomputable def goMod (x y : ℝ) : ℝ :=
  x - y * (goInt (x / y) : ℝ)

/-- The inclusive integer range `a, a+1, ..., b` of a Go loop
`for i := a; i <= b; i++`; empty when `b < a`. -/
def intRangeIncl (a b : ℤ) : List ℤ :=
  (List.range (b + 1 - a).toNat).map (fun i => a + (i : ℤ))

/-! ## Data model (`internal/models/models.go`, fields used by the core) -/

/-- Mass of a body: `MassValue * 10^MassExponent` kg. -/
structure Mass where
  massValue : ℝ := 0
  massExponent : ℤ := 0

/-- Optional precise orbital elements (`models.OrbitalElement`); only the
fields read by the calculators are carried.  `epoch` is in days since
J2000.0. -/
structure OrbitalElement where
  meanAnomaly : ℝ := 0
  epoch : ℝ := 0

/-- A celestial body (`models.CelestialBody`), restricted to the fields the
visualization core reads. -/
structure CelestialBody where
  englishName : String := ""
  isPlanet : Bool := false
  bodyType : String := ""
  semimajorAxis : ℝ := 0
  eccentricity : ℝ := 0
  mass : Mass := {}
  meanRadius : ℝ := 0
  sideralOrbit : ℝ := 0
  temperature : ℝ := 0
  stellarClass : String := ""
  orbitalElements : Option OrbitalElement := none

/-! ## Character grid (`[][]rune`) -/

/-- A `[][]rune` grid: a list of rows of characters. -/
abbrev Grid := List (List Char)

/-- The grid is a `height × width` rectangle. -/
def RectGrid (g : Grid) (w h : ℕ) : Prop :=
  g.length = h ∧ ∀ row ∈ g, row.length = w

/-- Reading `grid[y][x]`; `none` is Go's index-out-of-range panic. -/
def readCell (g : Grid) (y x : ℤ) : Option Char :=
  if 0 ≤ y ∧ 0 ≤ x then g[y.toNat]?.bind fun row => row[x.toNat]?
  else none

/-- Writing `grid[y][x] = c`; `none` is Go's index-out-of-range panic. -/
def writeCell (g : Grid) (y x : ℤ) (c : Char) : Option Grid :=
  if 0 ≤ y ∧ 0 ≤ x then
    g[y.toNat]?.bind fun row =>
      if x.toNat < row.length then some (g.set y.toNat (row.set x.toNat c))
      else none
  else none

/-- `CircleDrawer.isInBounds` from `internal/visualization/circle.go`. -/
def isInBounds (x y width height : ℤ) : Prop :=
  0 ≤ x ∧ x < width ∧ 0 ≤ y ∧ y < height

instance (x y w h : ℤ) : Decidable (isInBounds x y w h) := by
  unfold isInBounds
  infer_instance

/-- `CircleDrawer` with its aspect-ratio correction factor
(`constants.AspectRatio = 2.0` in the running program). -/
structure CircleDrawer where
  aspect : ℝ

/-- One guarded write of `DrawCircle` / `renderDebrisBelt`:
`if cd.isInBounds(x, y, len(grid[0]), len(grid)) && grid[y][x] == ' '
\x7b grid[y][x] = symbol \x7d`.  `len(grid[0])` panics on an empty grid
(`none`). -/
def drawBlankStep : Grid → ℤ → ℤ → Char → Option Grid
  | [], _, _, _ => none
  | r0 :: rest, x, y, symbol =>
      if isInBounds x y (r0.length : ℤ) ((r0 :: rest).length : ℤ) then
        match readCell (r0 :: rest) y x with
        | none => none
        | some cur => if cur = ' ' then writeCell (r0 :: rest) y x symbol else some (r0 :: rest)
      else some (r0 :: rest)

/-- One guarded write of `DrawFilledCircle` / `RenderPlanet` / `RenderStars`:
`if cd.isInBounds(x, y, len(grid[0]), len(grid)) \x7b grid[y][x] = symbol \x7d`.
`len(grid[0])` panics on an empty grid (`none`). -/
def drawOverwriteStep : Grid → ℤ → ℤ → Char → Option Grid
  | [], _, _, _ => none
  | r0 :: rest, x, y, symbol =>
      if isInBounds x y (r0.length : ℤ) ((r0 :: rest).length : ℤ) then
        writeCell (r0 :: rest) y x symbol
      else some (r0 :: rest)

/-- `CircleDrawer.CalculatePosition`: the grid point at `angle` on the circle
of (vertical) radius `radius`, horizontally stretched by the aspect ratio. -/
noncomputable def CalculatePosition (cd : CircleDrawer) (centerX centerY : ℤ)
    (radius angle : ℝ) : ℤ × ℤ :=
  (centerX + goInt (radius * Real.cos angle * cd.aspect),
   centerY + goInt (radius * Real.sin angle))

/-- `CircleDrawer.DrawCircle`: angular sampling with at least 720 steps,
writing the symbol only into blank cells. -/
noncomputable def DrawCircle (cd : CircleDrawer) (g : Grid) (centerX centerY : ℤ)
    (radius : ℝ) (symbol : Char) : Option Grid :=
  let circumference := 2 * π * radius
  let steps0 := goInt (circumference * 4)
  let steps := if steps0 < 720 then 720 else steps0
  (List.range steps.toNat).foldlM
    (fun grid i =>
      let angle := (i : ℝ) * 2 * π / (steps : ℝ)
      drawBlankStep grid (centerX + goInt (radius * Real.cos angle * cd.aspect))
        (centerY + goInt (radius * Real.sin angle)) symbol)
    g

/-- `CircleDrawer.DrawFilledCircle`: row scan `dy = -radius .. radius`, with
half-width `sqrt(radius² - dy²)` stretched by the aspect ratio, overwriting
every in-bounds cell of the span. -/
noncomputable def DrawFilledCircle (cd : CircleDrawer) (g : Grid) (centerX centerY : ℤ)
    (radius : ℤ) (symbol : Char) : Option Grid :=
  (intRangeIncl (-radius) radius).foldlM
    (fun grid dy =>
      let rowWidth := Real.sqrt ((radius * radius - dy * dy : ℤ) : ℝ)
      let maxDx := goInt (rowWidth * cd.aspect)
      (intRangeIncl (-maxDx) maxDx).foldlM
        (fun grid2 dx => drawOverwriteStep grid2 (centerX + dx) (centerY + dy) symbol)
        grid)
    g

/-- Non-blank cells of `g0` survive one step from `g` to `g'`; the relation
composes along the fold. -/
def PreservesMarked (g0 g : Grid) : Prop :=
  ∀ y x c, readCell g0 y x = some c → c ≠ ' ' → readCell g y x = some c

/-! ## Distance scaler (`internal/visualization/scaling.go`) -/

/-- `DistanceScaler` with the current viewport dimensions. -/
structure DistanceScaler where
  width : ℤ
  height : ℤ

/-- The running minimum/maximum of `findDistanceRange`; `none` is the
`first = true` state. -/
noncomputable def findRangeFold (planets : List CelestialBody) : Option (ℝ × ℝ) :=
  planets.foldl
    (fun (acc : Option (ℝ × ℝ)) planet =>
      if planet.englishName = "Sun" ∨ planet.semimajorAxis ≤ (0 : ℝ) then acc
      else
        match acc with
        | none => some (planet.semimajorAxis, planet.semimajorAxis)
        | some (mn, mx) =>
            some ((if planet.semimajorAxis < mn then planet.semimajorAxis else mn),
                  (if mx < planet.semimajorAxis then planet.semimajorAxis else mx)))
    none

/-- `DistanceScaler.findDistanceRange`: min/max semimajor axis over the body
set, skipping the Sun and non-positive axes, defaulting to `(1, 100)`. -/
noncomputable def findDistanceRange (ds : DistanceScaler) (planets : List CelestialBody) : ℝ × ℝ :=
  match planets with
  | [] => (1, 100)
  | _ :: _ =>
      match findRangeFold planets with
      | none => (1, 100)
      | some r => r

/-- The local `minRadius := 8.0` of `ScaleDistance`. -/
def scaleMinRadius : ℝ := 8

/-- The local `maxRadius` of `ScaleDistance`, derived from the smaller
viewport half-dimension with a 5% margin; `/` is Go integer division. -/
def scaleMaxRadius (ds : DistanceScaler) : ℝ :=
  min ((ds.width / 2 - 3 : ℤ) : ℝ) ((ds.height / 2 - 3 : ℤ) : ℝ) * 0.95

/-- `DistanceScaler.ScaleDistance`: log-linear interpolation of `distance`
between the sampled range endpoints.  When `logMax - logMin = 0` the Go code
divides by zero and yields a non-finite float (NaN or ±Inf), modelled by
`none`; there is no guard in the source. -/
noncomputable def ScaleDistance (ds : DistanceScaler) (distance : ℝ)
    (planets : List CelestialBody) : Option ℝ :=
  if distance ≤ 0 then some 0
  else
    let r := findDistanceRange ds planets
    let logMin := Real.log r.1
    let logMax := Real.log r.2
    let logCurrent := Real.log distance
    if logMax - logMin = 0 then none
    else
      some (scaleMinRadius +
        ((logCurrent - logMin) / (logMax - logMin)) * (scaleMaxRadius ds - scaleMinRadius))

/-! ## Debris belts (`internal/visualization/debris.go`) -/

/-- `DebrisBeltRenderer` holds the circle drawer and the distance scaler. -/
structure DebrisBeltRenderer where
  circleDrawer : CircleDrawer
  scaler : DistanceScaler

/-- The angles `0, step, 2·step, … < 360` of the Go loop
`for angle := 0; angle < 360; angle += angleStep`.  For `step ≤ 0` the Go
loop would never terminate; the repository only calls it with steps 10 and
12, and the model returns the empty list in that unreachable case. -/
def debrisAngles (step : ℤ) : List ℤ :=
  if 0 < step then (List.range ((360 + step - 1) / step).toNat).map (fun i => (i : ℤ) * step)
  else []

/-- `DebrisBeltRenderer.renderDebrisBelt`: for each sampled angle and each of
the `rings` concentric radii between `innerRadius` and `outerRadius`, write
the symbol into the sampled cell if it is blank.  The angle uses the literal
`3.14159 / 180` conversion of the source, not `math.Pi`. -/
noncomputable def renderDebrisBelt (dbr : DebrisBeltRenderer) (g : Grid)
    (centerX centerY : ℤ) (innerRadius outerRadius : ℝ) (angleStep rings : ℤ)
    (symbol : Char) : Option Grid :=
  (debrisAngles angleStep).foldlM
    (fun grid angle =>
      let radians := (angle : ℝ) * 3.14159 / 180
      (List.range rings.toNat).foldlM
        (fun grid2 i =>
          let radius := innerRadius + (i : ℝ) * (outerRadius - innerRadius) / (rings : ℝ)
          let p := CalculatePosition dbr.circleDrawer centerX centerY radius radians
          drawBlankStep grid2 p.1 p.2 symbol)
        grid)
    g

/-! ## Orbital calculators (`internal/orbital/calculator.go`)

Time is measured in days since J2000.0, so `t.Sub(u).Hours()/24` becomes
`t - u` and the J2000.0 epoch itself is `0`. -/

/-- The tabulated J2000.0 mean anomalies (radians) of the nine canonical
Sol-system bodies; `none` for any other name. -/
noncomputable def j2000MeanAnomalies (name : String) : Option ℝ :=
  if name = "Mercury" then some (174.7948 * π / 180)
  else if name = "Venus" then some (50.4161 * π / 180)
  else if name = "Earth" then some (357.5291 * π / 180)
  else if name = "Mars" then some (19.3730 * π / 180)
  else if name = "Jupiter" then some (20.0202 * π / 180)
  else if name = "Saturn" then some (317.0207 * π / 180)
  else if name = "Uranus" then some (141.0498 * π / 180)
  else if name = "Neptune" then some (256.2250 * π / 180)
  else if name = "Pluto" then some (14.8820 * π / 180)
  else none

/-- `GenericCalculator`: pseudo-random positioning for external systems,
with its process-start epoch (days since J2000.0). -/
structure GenericCalculator where
  epochTime : ℝ

/-- `SolarSystemCalculator` with its fallback epoch. -/
structure SolarSystemCalculator where
  epochTime : ℝ

/-- The deterministic seed `SemimajorAxis + SideralOrbit + MeanRadius`. -/
def genericSeed (body : CelestialBody) : ℝ :=
  body.semimajorAxis + body.sideralOrbit + body.meanRadius

/-- The seed-derived pseudo-initial angle
`math.Mod(seed*0.01745329, 2*math.Pi)`. -/
noncomputable def genericInitialAngle (body : CelestialBody) : ℝ :=
  goMod (genericSeed body * 0.01745329) (2 * π)

/-- `GenericCalculator.CalculateMeanAnomaly`. -/
noncomputable def GenericCalculator.CalculateMeanAnomaly (gc : GenericCalculator)
    (body : CelestialBody) (currentTime : ℝ) : ℝ :=
  let initialAngle := genericInitialAngle body
  let daysSinceEpoch := currentTime - gc.epochTime
  if body.sideralOrbit ≤ 0 then initialAngle
  else goMod (initialAngle + (2 * π / body.sideralOrbit) * daysSinceEpoch) (2 * π)

/-- `SolarSystemCalculator.CalculateMeanAnomaly`: J2000.0 table for known
bodies, generic fallback otherwise. -/
noncomputable def SolarSystemCalculator.CalculateMeanAnomaly
    (sc : SolarSystemCalculator) (body : CelestialBody) (currentTime : ℝ) : ℝ :=
  match j2000MeanAnomalies body.englishName with
  | none => GenericCalculator.CalculateMeanAnomaly ⟨sc.epochTime⟩ body currentTime
  | some j2000MeanAnomaly =>
      let daysSinceJ2000 := currentTime - 0
      if body.sideralOrbit ≤ 0 then j2000MeanAnomaly
      else goMod (j2000MeanAnomaly + (2 * π / body.sideralOrbit) * daysSinceJ2000) (2 * π)

/-- `ExactCalculator.CalculateMeanAnomaly`: seeded from the body's recorded
orbital elements (`MeanAnomaly` in degrees, its own epoch); returns `0` when
no elements are present. -/
noncomputable def ExactCalculator.CalculateMeanAnomaly (body : CelestialBody)
    (currentTime : ℝ) : ℝ :=
  match body.orbitalElements with
  | none => 0
  | some oe =>
      let daysSinceEpoch := currentTime - oe.epoch
      if body.sideralOrbit ≤ 0 then goMod (oe.meanAnomaly * π / 180) (2 * π)
      else goMod (oe.meanAnomaly * π / 180 + (2 * π / body.sideralOrbit) * daysSinceEpoch)
        (2 * π)

/-! ## Celestial object renderer (`internal/visualization/celestial.go`) -/

/-- Screen position of a star. -/
structure StarPosition where
  x : ℤ
  y : ℤ
deriving DecidableEq

/-- `CelestialObjectRenderer`: circle drawer, process-start instants (days
since J2000.0) and terminal dimensions. -/
structure CelestialObjectRenderer where
  circleDrawer : CircleDrawer
  startTime : ℝ
  epochTime : ℝ
  width : ℤ
  height : ℤ

/-- `getTerminalSizeFactor`: `min(width,height)/36` clamped to `[0.5, 2.5]`. -/
noncomputable def getTerminalSizeFactor (cor : CelestialObjectRenderer) : ℝ :=
  let minDimension := min (cor.width : ℝ) (cor.height : ℝ)
  let sizeFactor := minDimension / 36
  if sizeFactor < 0.5 then 0.5
  else if sizeFactor > 2.5 then 2.5
  else sizeFactor

/-- The solar mass constant `1.989e30` kg used throughout the renderer. -/
def solarMassKg : ℝ := 1.989e30

/-- `getStarMass`: recorded mass `MassValue · 10^MassExponent`; else the
main-sequence estimate `(R/R_sun)^2.5 · M_sun`; else one solar mass.
`math.Pow` is real exponentiation. -/
noncomputable def getStarMass (cor : CelestialObjectRenderer)
    (star : CelestialBody) : ℝ :=
  if star.mass.massValue > 0 then
    star.mass.massValue * (10 : ℝ) ^ ((star.mass.massExponent : ℤ) : ℝ)
  else if star.meanRadius > 0 then
    ((star.meanRadius / 695700) ^ (2.5 : ℝ)) * solarMassKg
  else solarMassKg

/-- `classifyByTemperature`: spectral class from effective temperature. -/
noncomputable def classifyByTemperature (temp : ℝ) : String :=
  if temp ≥ 30000 then "O5V"
  else if temp ≥ 10000 then "B5V"
  else if temp ≥ 7500 then "A5V"
  else if temp ≥ 6000 then "F5V"
  else if temp ≥ 5200 then "G5V"
  else if temp ≥ 3700 then "K5V"
  else "M5V"

/-- `getStellarClass`: the recorded class when non-empty, else classified by
temperature when positive, else by the mass ratio to the Sun. -/
noncomputable def getStellarClass (cor : CelestialObjectRenderer)
    (star : CelestialBody) : String :=
  if star.stellarClass ≠ "" then star.stellarClass
  else if star.temperature > 0 then classifyByTemperature star.temperature
  else
    let massRatio := getStarMass cor star / solarMassKg
    if massRatio > 16 then "O5V"
    else if massRatio > 2.1 then "B5V"
    else if massRatio > 1.4 then "A5V"
    else if massRatio > 1.04 then "F5V"
    else if massRatio > 0.8 then "G5V"
    else if massRatio > 0.45 then "K5V"
    else "M5V"

/-- `getStarSymbol`: switch on the first character of the stellar class;
Go's `stellarClass[0]` panics (`none`) on an empty class string. -/
noncomputable def getStarSymbol (cor : CelestialObjectRenderer)
    (star : CelestialBody) : Option Char :=
  match (getStellarClass cor star).toList with
  | [] => none
  | c :: _ =>
      some (if c = 'O' ∨ c = 'B' then '✦'
        else if c = 'A' ∨ c = 'F' then '✧'
        else if c = 'G' then '☉'
        else if c = 'K' then '✩'
        else if c = 'M' then '✪'
        else if star.englishName = "Sun" then '☉'
        else '⭐')

/-- The fixed glyph palette of `generateGenericSymbol`. -/
def genericSymbols : List Char :=
  ['●', '◉', '◎', '○', '◯', '⬤', '⚫', '⚪', '🪐', '🌍', '🌎', '🌏', '🌑', '🌒',
   '🌓', '🌔', '🌕', '🌖', '🌗', '🌘']

/-- The stable hash of `generateGenericSymbol`:
`hash = (hash + int(char)) % len(palette)` over the name's runes. -/
def nameHash (name : String) : ℕ :=
  name.toList.foldl (fun hsh c => (hsh + c.toNat) % genericSymbols.length) 0

/-- `generateGenericSymbol`: the palette glyph selected by the name hash
(the hash is always `< 20`, so the default branch is unreachable). -/
def generateGenericSymbol (name : String) : Char :=
  genericSymbols.getD (nameHash name) ' '

/-- The fixed glyph table of `GetPlanetSymbol` for the Sol system. -/
def knownSymbols (name : String) : Option Char :=
  if name = "Sun" then some '☉'
  else if name = "Mercury" then some '☿'
  else if name = "Venus" then some '♀'
  else if name = "Earth" then some '♁'
  else if name = "Mars" then some '♂'
  else if name = "Jupiter" then some '♃'
  else if name = "Saturn" then some '♄'
  else if name = "Uranus" then some '♅'
  else if name = "Neptune" then some '♆'
  else if name = "Pluto" then some '♇'
  else none

/-- `GetPlanetSymbol`: fixed table for the Sol system, hashed palette glyph
for any other name. -/
def GetPlanetSymbol (name : String) : Char :=
  match knownSymbols name with
  | some symbol => symbol
  | none => generateGenericSymbol name

/-- `isOurSolarSystem`: name membership in the canonical planet table. -/
def isOurSolarSystem (planet : CelestialBody) : Prop :=
  planet.englishName ∈ ["Mercury", "Venus", "Earth", "Mars", "Jupiter", "Saturn",
    "Uranus", "Neptune", "Pluto"]

instance (planet : CelestialBody) : Decidable (isOurSolarSystem planet) := by
  unfold isOurSolarSystem
  infer_instance

/-- `calculateGenericMeanAnomaly` of the renderer (the identical computation
is inlined a second time in `calculateCurrentMeanAnomaly`). -/
noncomputable def calculateGenericMeanAnomaly (cor : CelestialObjectRenderer)
    (planet : CelestialBody) (now : ℝ) : ℝ :=
  let initialAngle := genericInitialAngle planet
  let daysSinceEpoch := now - cor.epochTime
  if planet.sideralOrbit ≤ 0 then initialAngle
  else goMod (initialAngle + (2 * π / planet.sideralOrbit) * daysSinceEpoch) (2 * π)

/-- `calculateSolarSystemMeanAnomaly` of the renderer: J2000.0 table plus
advancement to `now` (days since J2000.0). -/
noncomputable def calculateSolarSystemMeanAnomaly (cor : CelestialObjectRenderer)
    (planet : CelestialBody) (now : ℝ) : ℝ :=
  match j2000MeanAnomalies planet.englishName with
  | none => calculateGenericMeanAnomaly cor planet now
  | some j2000MeanAnomaly =>
      let daysSinceJ2000 := now - 0
      if planet.sideralOrbit ≤ 0 then j2000MeanAnomaly
      else goMod (j2000MeanAnomaly + (2 * π / planet.sideralOrbit) * daysSinceJ2000) (2 * π)

/-- `calculateCurrentMeanAnomaly`: table-based for Sol-system names, seeded
pseudo-random otherwise. -/
noncomputable def calculateCurrentMeanAnomaly (cor : CelestialObjectRenderer)
    (planet : CelestialBody) (now : ℝ) : ℝ :=
  if isOurSolarSystem planet then calculateSolarSystemMeanAnomaly cor planet now
  else calculateGenericMeanAnomaly cor planet now

/-- `calculateMeanAnomaly`: the animated anomaly, advancing the current one
by `meanMotion · elapsedSeconds · 864000`. -/
noncomputable def calculateMeanAnomaly (cor : CelestialObjectRenderer)
    (planet : CelestialBody) (now : ℝ) : ℝ :=
  let currentMeanAnomaly := calculateCurrentMeanAnomaly cor planet now
  let elapsed := (now - cor.startTime) * 86400
  let orbitalPeriodSeconds := planet.sideralOrbit * 24 * 3600
  let meanMotion := 2 * π / orbitalPeriodSeconds
  let animationSpeedFactor := 864000
  currentMeanAnomaly + meanMotion * elapsed * animationSpeedFactor

/-- `getOrbitalAngle`: `0` for non-positive periods, else the (optionally
eccentricity-corrected) animated anomaly reduced by `math.Mod`. -/
noncomputable def getOrbitalAngle (cor : CelestialObjectRenderer)
    (planet : CelestialBody) (now : ℝ) : ℝ :=
  if planet.sideralOrbit ≤ 0 then 0
  else
    let meanAnomaly := calculateMeanAnomaly cor planet now
    if planet.eccentricity > 0 then
      goMod (meanAnomaly + 2 * planet.eccentricity * Real.sin meanAnomaly) (2 * π)
    else goMod meanAnomaly (2 * π)

/-! ### Star placement -/

/-- `calculateBinarySeparation`: `max(6·sizeFactor, 6)` screen cells. -/
noncomputable def calculateBinarySeparation (cor : CelestialObjectRenderer)
    (stars : List CelestialBody) : ℝ :=
  max (6 * getTerminalSizeFactor cor) 6

/-- `calculateBinaryOrbitalPeriod`: Kepler-like scaling clamped to
`[10, 120]` seconds. -/
noncomputable def calculateBinaryOrbitalPeriod (cor : CelestialObjectRenderer)
    (stars : List CelestialBody) (separation : ℝ) : ℝ :=
  match stars with
  | [s1, s2] =>
      let mass1 := getStarMass cor s1
      let mass2 := getStarMass cor s2
      let totalMass := mass1 + mass2
      let totalMassRatio := totalMass / solarMassKg
      let basePeriod := 20
      let periodScaling := (separation / 10) ^ (1.5 : ℝ) / Real.sqrt totalMassRatio
      let period := basePeriod * periodScaling
      if period < 10 then 10
      else if period > 120 then 120
      else period
  | _ => 30

/-- The barycenter distance `r1 = separation · m2/(m1+m2)` of the first
star. -/
noncomputable def binaryR1 (cor : CelestialObjectRenderer)
    (s1 s2 : CelestialBody) : ℝ :=
  calculateBinarySeparation cor [s1, s2] *
    (getStarMass cor s2 / (getStarMass cor s1 + getStarMass cor s2))

/-- The barycenter distance `r2 = separation · m1/(m1+m2)` of the second
star. -/
noncomputable def binaryR2 (cor : CelestialObjectRenderer)
    (s1 s2 : CelestialBody) : ℝ :=
  calculateBinarySeparation cor [s1, s2] *
    (getStarMass cor s1 / (getStarMass cor s1 + getStarMass cor s2))

/-- The orbital phase of `calculateBinaryStarPositions`:
`2π · elapsedSeconds / period`. -/
noncomputable def binaryAngle (cor : CelestialObjectRenderer)
    (s1 s2 : CelestialBody) (now : ℝ) : ℝ :=
  let elapsed := (now - cor.startTime) * 86400
  let orbitalPeriod :=
    calculateBinaryOrbitalPeriod cor [s1, s2] (calculateBinarySeparation cor [s1, s2])
  2 * π * elapsed / orbitalPeriod

/-- `calculateBinaryStarPositions`: the two stars on opposite sides of the
screen-center barycenter, vertical displacement halved for the terminal
aspect ratio. -/
noncomputable def calculateBinaryStarPositions (cor : CelestialObjectRenderer)
    (stars : List CelestialBody) (centerX centerY : ℤ) (now : ℝ) : List StarPosition :=
  match stars with
  | [s1, s2] =>
      let r1 := binaryR1 cor s1 s2
      let r2 := binaryR2 cor s1 s2
      let angle := binaryAngle cor s1 s2 now
      let x1 := centerX + goInt (r1 * Real.cos angle)
      let y1 := centerY + goInt (r1 * Real.sin angle * 0.5)
      let x2 := centerX - goInt (r2 * Real.cos angle)
      let y2 := centerY - goInt (r2 * Real.sin angle * 0.5)
      [⟨x1, y1⟩, ⟨x2, y2⟩]
  | _ => [⟨centerX, centerY⟩]

/-! ### Body sizing and the compositor planet loop
(`internal/visualization/renderer.go`) -/

/-- `maxSizes` lookup of `scalePlanetSize`: each base size caps itself. -/
def planetMaxSizes (baseSize : ℤ) : Option ℤ :=
  if baseSize = 3 then some 3
  else if baseSize = 2 then some 2
  else if baseSize = 1 then some 1
  else none

/-- `scalePlanetSize`: log₁₀-radius class, scaled by the terminal factor and
clamped per class. -/
noncomputable def scalePlanetSize (cor : CelestialObjectRenderer)
    (meanRadius : ℝ) : ℤ :=
  if meanRadius ≤ 0 then 1
  else
    let terminalSizeFactor := getTerminalSizeFactor cor
    let logRadius := Real.logb 10 meanRadius
    let baseSize : ℤ :=
      if logRadius ≥ 4.8 then 3
      else if logRadius ≥ 4.7 then 2
      else if logRadius ≥ 4.3 then 2
      else if logRadius ≥ 3.7 then 1
      else if logRadius ≥ 3.3 then 1
      else 1
    let scaledSize0 := goInt ((baseSize : ℝ) * terminalSizeFactor)
    let scaledSize := if scaledSize0 < 1 then 1 else scaledSize0
    match planetMaxSizes baseSize with
    | some maxSize => if scaledSize > maxSize then maxSize else scaledSize
    | none => scaledSize

/-- `scaleSunSize`: `3·sizeFactor` truncated, clamped to `[2, 4]`. -/
noncomputable def scaleSunSize (cor : CelestialObjectRenderer) : ℤ :=
  let scaledSize := goInt (3 * getTerminalSizeFactor cor)
  if scaledSize < 2 then 2
  else if scaledSize > 4 then 4
  else scaledSize

/-- `scaleStarSize`: sun scaling for a single star, radius 2 otherwise. -/
noncomputable def scaleStarSize (cor : CelestialObjectRenderer)
    (meanRadius : ℝ) (numStars : ℕ) : ℤ :=
  if numStars = 1 then scaleSunSize cor else 2

/-- `RenderOrbit`: the orbit ring as a circle outline of `'·'` glyphs. -/
noncomputable def RenderOrbit (cor : CelestialObjectRenderer) (g : Grid)
    (centerX centerY : ℤ) (radius : ℝ) : Option Grid :=
  DrawCircle cor.circleDrawer g centerX centerY radius '·'

/-- `RenderPlanet`: the planet disc (single guarded write for size ≤ 1, else
a filled circle) at its orbital position. -/
noncomputable def RenderPlanet (cor : CelestialObjectRenderer) (g : Grid)
    (centerX centerY : ℤ) (planet : CelestialBody) (radius : ℝ) (now : ℝ) :
    Option Grid :=
  let angle := getOrbitalAngle cor planet now
  let p := CalculatePosition cor.circleDrawer centerX centerY radius angle
  let planetRadius := scalePlanetSize cor planet.meanRadius
  let symbol := GetPlanetSymbol planet.englishName
  if planetRadius ≤ 1 then drawOverwriteStep g p.1 p.2 symbol
  else DrawFilledCircle cor.circleDrawer g p.1 p.2 planetRadius symbol

/-- The compositor `Renderer` (fields used by the planet loop). -/
structure Renderer where
  circleDrawer : CircleDrawer
  celestialRenderer : CelestialObjectRenderer
  distanceScaler : DistanceScaler

/-- `separateStarsAndPlanets`: a body is a star when `BodyType == "Star"`,
it is named `Sun`, or it has semimajor axis `0` and is not flagged a
planet. -/
noncomputable def separateStarsAndPlanets (bodies : List CelestialBody) :
    List CelestialBody × List CelestialBody :=
  bodies.foldr
    (fun body (acc : List CelestialBody × List CelestialBody) =>
      if body.bodyType = "Star" ∨ body.englishName = "Sun" ∨
          (body.semimajorAxis = 0 ∧ body.isPlanet = false) then
        (body :: acc.1, acc.2)
      else (acc.1, body :: acc.2))
    ([], [])

/-- Screen position record of `RenderSolarSystemDataWithPositions`. -/
structure PlanetPosition where
  x : ℤ
  y : ℤ
  radius : ℤ
  planet : CelestialBody

/-- The body of the planet loop in `Renderer.RenderSolarSystemData`: skip
non-positive semimajor axes, else scale the distance against the full
`rangePlanets` set, draw the orbit ring, then the planet disc. -/
noncomputable def renderPlanetStep (r : Renderer) (centerX centerY : ℤ)
    (rangePlanets : List CelestialBody) (now : ℝ) (grid : Grid)
    (planet : CelestialBody) : Option Grid :=
  if planet.semimajorAxis ≤ 0 then some grid
  else
    match ScaleDistance r.distanceScaler planet.semimajorAxis rangePlanets with
    | none => none
    | some radius =>
        match RenderOrbit r.celestialRenderer grid centerX centerY radius with
        | none => none
        | some grid2 => RenderPlanet r.celestialRenderer grid2 centerX centerY planet radius now

/-- The planet loop of `Renderer.RenderSolarSystemData` over the planet
list. -/
noncomputable def renderPlanetsLoop (r : Renderer) (centerX centerY : ℤ)
    (rangePlanets iter : List CelestialBody) (now : ℝ) (grid : Grid) : Option Grid :=
  iter.foldlM (renderPlanetStep r centerX centerY rangePlanets now) grid

/-- The body of the planet loop in
`Renderer.RenderSolarSystemDataWithPositions`: as `renderPlanetStep`, and
additionally records the planet's screen position and visual radius. -/
noncomputable def renderPlanetStepPos (r : Renderer) (centerX centerY : ℤ)
    (rangePlanets : List CelestialBody) (now : ℝ)
    (st : Grid × List (String × PlanetPosition)) (planet : CelestialBody) :
    Option (Grid × List (String × PlanetPosition)) :=
  if planet.semimajorAxis ≤ 0 then some st
  else
    match ScaleDistance r.distanceScaler planet.semimajorAxis rangePlanets with
    | none => none
    | some radius =>
        match RenderOrbit r.celestialRenderer st.1 centerX centerY radius with
        | none => none
        | some grid2 =>
            let angle := getOrbitalAngle r.celestialRenderer planet now
            let p := CalculatePosition r.circleDrawer centerX centerY radius angle
            let planetRadius := scalePlanetSize r.celestialRenderer planet.meanRadius
            match RenderPlanet r.celestialRenderer grid2 centerX centerY planet radius now with
            | none => none
            | some grid3 =>
                some (grid3,
                  st.2 ++ [(planet.englishName, ⟨p.1, p.2, planetRadius, planet⟩)])

/-- The planet loop of `Renderer.RenderSolarSystemDataWithPositions`. -/
noncomputable def renderPlanetsLoopPos (r : Renderer) (centerX centerY : ℤ)
    (rangePlanets iter : List CelestialBody) (now : ℝ)
    (st : Grid × List (String × PlanetPosition)) :
    Option (Grid × List (String × PlanetPosition)) :=
  iter.foldlM (renderPlanetStepPos r centerX centerY rangePlanets now) st

/-! ## Numeric, grid and rasterizer lemmas -/

theorem goInt_of_nonneg {r : ℝ} (h : 0 ≤ r) : goInt r = ⌊r⌋ := by
  simp [goInt, h]

theorem goInt_of_neg {r : ℝ} (h : r < 0) : goInt r = ⌈r⌉ := by
  simp [goInt, not_le.mpr h]

theorem goMod_eq_self_of_nonneg {x y : ℝ} (hx : 0 ≤ x) (hxy : x < y) :
    goMod x y = x := by
  have hy : 0 < y := lt_of_le_of_lt hx hxy
  have hq0 : 0 ≤ x / y := div_nonneg hx hy.le
  have hq1 : x / y < 1 := (div_lt_one hy).mpr hxy
  have hz : goInt (x / y) = 0 := by
    rw [goInt_of_nonneg hq0]
    exact Int.floor_eq_zero_iff.mpr ⟨hq0, hq1⟩
  simp [goMod, hz]

theorem goMod_eq_self_of_neg {x y : ℝ} (hy : 0 < y) (hx : x ≤ 0) (hxy : -y < x) :
    goMod x y = x := by
  rcases eq_or_lt_of_le hx with hx0 | hxneg
  · have hz : goInt (x / y) = 0 := by
      rw [hx0, zero_div]
      simp [goInt]
    simp [goMod, hz]
  · have hq0 : x / y < 0 := div_neg_of_neg_of_pos hxneg hy
    have hq1 : -1 < x / y := by
      have h1 : -y / y < x / y := by gcongr
      rwa [neg_div, div_self hy.ne'] at h1
    have hz : goInt (x / y) = 0 := by
      rw [goInt_of_neg hq0]
      exact Int.ceil_eq_zero_iff.mpr ⟨hq1, hq0.le⟩
    simp [goMod, hz]

theorem goMod_lt {x y : ℝ} (hy : 0 < y) : goMod x y < y := by
  by_cases hx : 0 ≤ x
  · have hq0 : 0 ≤ x / y := div_nonneg hx hy.le
    rw [goMod, goInt_of_nonneg hq0]
    have hfr : x - y * (⌊x / y⌋ : ℝ) = y * Int.fract (x / y) := by
      rw [Int.fract]
      field_simp
    rw [hfr]
    calc y * Int.fract (x / y) < y * 1 :=
          (mul_lt_mul_left hy).mpr (Int.fract_lt_one _)
      _ = y := mul_one y
  · push_neg at hx
    have hq0 : x / y < 0 := div_neg_of_neg_of_pos hx hy
    rw [goMod, goInt_of_neg hq0]
    have hle : x / y ≤ (⌈x / y⌉ : ℝ) := Int.le_ceil _
    have hxle : x ≤ y * (⌈x / y⌉ : ℝ) := by
      have := (div_le_iff₀ hy).mp hle
      linarith [(div_le_iff₀ hy).mp hle]
    linarith

theorem goMod_gt_neg {x y : ℝ} (hy : 0 < y) : -y < goMod x y := by
  by_cases hx : 0 ≤ x
  · have hq0 : 0 ≤ x / y := div_nonneg hx hy.le
    rw [goMod, goInt_of_nonneg hq0]
    have hfl : (⌊x / y⌋ : ℝ) ≤ x / y := Int.floor_le _
    have : y * (⌊x / y⌋ : ℝ) ≤ x := by
      have := (le_div_iff₀ hy).mp hfl
      linarith
    linarith
  · push_neg at hx
    have hq0 : x / y < 0 := div_neg_of_neg_of_pos hx hy
    rw [goMod, goInt_of_neg hq0]
    have hcl : (⌈x / y⌉ : ℝ) < x / y + 1 := Int.ceil_lt_add_one _
    have : y * (⌈x / y⌉ : ℝ) < x + y := by
      have h1 : y * (⌈x / y⌉ : ℝ) < y * (x / y + 1) := (mul_lt_mul_left hy).mpr hcl
      have h2 : y * (x / y + 1) = x + y := by field_simp
      linarith
    linarith

theorem goMod_mem_Ioo {x y : ℝ} (hy : 0 < y) :
    goMod x y ∈ Set.Ioo (-y) y :=
  ⟨goMod_gt_neg hy, goMod_lt hy⟩

theorem writeCell_eq {g g' : Grid} {y x : ℤ} {c : Char}
    (hw : writeCell g y x c = some g') :
    ∃ row, 0 ≤ y ∧ 0 ≤ x ∧ g[y.toNat]? = some row ∧ x.toNat < row.length ∧
      g' = g.set y.toNat (row.set x.toNat c) := by
  unfold writeCell at hw
  by_cases hyx : 0 ≤ y ∧ 0 ≤ x
  · rw [if_pos hyx] at hw
    rcases hrow : g[y.toNat]? with _ | row <;> rw [hrow] at hw
    · simp at hw
    · simp only [Option.some_bind] at hw
      by_cases hxl : x.toNat < row.length
      · rw [if_pos hxl] at hw
        exact ⟨row, hyx.1, hyx.2, rfl, hxl, (Option.some.inj hw).symm⟩
      · rw [if_neg hxl] at hw
        simp at hw
  · rw [if_neg hyx] at hw
    simp at hw

theorem writeCell_rect {g g' : Grid} {w h : ℕ} {y x : ℤ} {c : Char}
    (hg : RectGrid g w h) (hw : writeCell g y x c = some g') : RectGrid g' w h := by
  obtain ⟨row, _, _, hrow, _, rfl⟩ := writeCell_eq hw
  constructor
  · simpa using hg.1
  · intro r hr
    rcases List.mem_or_eq_of_mem_set hr with hmem | rfl
    · exact hg.2 r hmem
    · rw [List.length_set]
      obtain ⟨hn, hget⟩ := List.getElem?_eq_some_iff.mp hrow
      exact hget ▸ hg.2 _ (List.getElem_mem hn)

theorem writeCell_some {g : Grid} {w h : ℕ} {y x : ℤ} (c : Char)
    (hg : RectGrid g w h) (hx0 : 0 ≤ x) (hxw : x < (w : ℤ))
    (hy0 : 0 ≤ y) (hyh : y < (h : ℤ)) :
    ∃ g', writeCell g y x c = some g' := by
  have hyn : y.toNat < g.length := by
    rw [hg.1]
    omega
  have hrow : g[y.toNat]? = some (g[y.toNat]) := List.getElem?_eq_getElem hyn
  have hlen : (g[y.toNat]).length = w := hg.2 _ (List.getElem_mem hyn)
  refine ⟨g.set y.toNat ((g[y.toNat]).set x.toNat c), ?_⟩
  unfold writeCell
  rw [if_pos ⟨hy0, hx0⟩, hrow]
  simp only [Option.some_bind]
  rw [if_pos (by omega)]

theorem readCell_some {g : Grid} {w h : ℕ} {y x : ℤ}
    (hg : RectGrid g w h) (hx0 : 0 ≤ x) (hxw : x < (w : ℤ))
    (hy0 : 0 ≤ y) (hyh : y < (h : ℤ)) :
    ∃ ch, readCell g y x = some ch := by
  have hyn : y.toNat < g.length := by
    rw [hg.1]
    omega
  have hrow : g[y.toNat]? = some (g[y.toNat]) := List.getElem?_eq_getElem hyn
  have hlen : (g[y.toNat]).length = w := hg.2 _ (List.getElem_mem hyn)
  have hxn : x.toNat < (g[y.toNat]).length := by omega
  refine ⟨(g[y.toNat])[x.toNat], ?_⟩
  unfold readCell
  rw [if_pos ⟨hy0, hx0⟩, hrow]
  simp only [Option.some_bind]
  exact List.getElem?_eq_getElem hxn

theorem readCell_writeCell_ne {g g' : Grid} {y x y' x' : ℤ} {c : Char}
    (hw : writeCell g y x c = some g') (hne : (y', x') ≠ (y, x)) :
    readCell g' y' x' = readCell g y' x' := by
  obtain ⟨row, hy0, hx0, hrow, hxl, rfl⟩ := writeCell_eq hw
  unfold readCell
  by_cases hyx' : 0 ≤ y' ∧ 0 ≤ x'
  · rw [if_pos hyx', if_pos hyx']
    by_cases hyy : y'.toNat = y.toNat
    · have hyeq : y' = y := by omega
      have hxne : x'.toNat ≠ x.toNat := by
        intro hxx
        exact hne (by
          have hxeq : x' = x := by omega
          rw [hyeq, hxeq])
      have hyn : y.toNat < g.length := (List.getElem?_eq_some_iff.mp hrow).1
      rw [hyy, List.getElem?_set_self hyn, hrow]
      simp only [Option.some_bind]
      rw [List.getElem?_set_ne (Ne.symm hxne)]
    · rw [List.getElem?_set_ne (fun hyx => hyy hyx.symm)]
  · rw [if_neg hyx', if_neg hyx']

theorem readCell_not_blank {g g' : Grid} {y x y' x' : ℤ} {c cur : Char}
    (hw : writeCell g y x c = some g')
    (hcur : readCell g y x = some ' ')
    (hc : readCell g y' x' = some cur) (hne : cur ≠ ' ') :
    readCell g' y' x' = some cur := by
  by_cases heq : (y', x') = (y, x)
  · obtain ⟨rfl, rfl⟩ := Prod.ext_iff.mp heq
    rw [hc] at hcur
    exact absurd (Option.some.inj hcur) hne
  · rw [readCell_writeCell_ne hw heq]
    exact hc

/-! ## Circle rasterizer (`internal/visualization/circle.go`) -/

/-! ### Fold invariants for the drawing loops -/

theorem foldlM_option_inv {α β : Type} (P : β → Prop) (f : β → α → Option β)
    (l : List α) (b : β) (hb : P b)
    (hf : ∀ b' a, P b' → ∃ b'', f b' a = some b'' ∧ P b'') :
    ∃ b', l.foldlM f b = some b' ∧ P b' := by
  induction l generalizing b with
  | nil => exact ⟨b, by simp, hb⟩
  | cons a l ih =>
      obtain ⟨b1, hfa, hb1⟩ := hf b a hb
      obtain ⟨b', hfold, hb'⟩ := ih b1 hb1
      refine ⟨b', ?_, hb'⟩
      rw [List.foldlM_cons, hfa]
      simpa using hfold

theorem preservesMarked_refl (g0 : Grid) : PreservesMarked g0 g0 :=
  fun _ _ _ hc _ => hc

theorem drawOverwriteStep_inv {g : Grid} {w h : ℕ} (hh : 0 < h)
    (hg : RectGrid g w h) (x y : ℤ) (symbol : Char) :
    ∃ g', drawOverwriteStep g x y symbol = some g' ∧ RectGrid g' w h := by
  rcases g with _ | ⟨r0, rest⟩
  · exact absurd hg.1 (by simpa using hh.ne)
  · simp only [drawOverwriteStep]
    by_cases hib : isInBounds x y (r0.length : ℤ) ((r0 :: rest).length : ℤ)
    · rw [if_pos hib]
      obtain ⟨hx0, hxw, hy0, hyh⟩ := hib
      have hr0 : r0.length = w := hg.2 r0 (by simp)
      obtain ⟨g', hg'⟩ := writeCell_some symbol hg hx0 (by omega)
        hy0 (by rw [← hg.1]; exact_mod_cast hyh)
      exact ⟨g', hg', writeCell_rect hg hg'⟩
    · exact ⟨r0 :: rest, by rw [if_neg hib], hg⟩

theorem drawBlankStep_inv {g0 g : Grid} {w h : ℕ} (hh : 0 < h)
    (hg : RectGrid g w h) (hp : PreservesMarked g0 g) (x y : ℤ) (symbol : Char) :
    ∃ g', drawBlankStep g x y symbol = some g' ∧ RectGrid g' w h ∧
      PreservesMarked g0 g' := by
  rcases g with _ | ⟨r0, rest⟩
  · exact absurd hg.1 (by simpa using hh.ne)
  · simp only [drawBlankStep]
    by_cases hib : isInBounds x y (r0.length : ℤ) ((r0 :: rest).length : ℤ)
    · rw [if_pos hib]
      obtain ⟨hx0, hxw, hy0, hyh⟩ := hib
      have hr0 : r0.length = w := hg.2 r0 (by simp)
      have hyh' : y < (h : ℤ) := by rw [← hg.1]; exact_mod_cast hyh
      obtain ⟨cur, hcur⟩ := readCell_some hg hx0 (by omega) hy0 hyh'
      rw [hcur]
      dsimp only
      by_cases hblank : cur = ' '
      · rw [if_pos hblank]
        obtain ⟨g', hg'⟩ := writeCell_some symbol hg hx0 (by omega) hy0 hyh'
        refine ⟨g', hg', writeCell_rect hg hg', ?_⟩
        intro y' x' c hc0 hcne
        exact readCell_not_blank hg' (hblank ▸ hcur) (hp y' x' c hc0 hcne) hcne
      · rw [if_neg hblank]
        exact ⟨r0 :: rest, rfl, hg, hp⟩
    · exact ⟨r0 :: rest, by rw [if_neg hib], hg, hp⟩

theorem drawCircle_inv {g : Grid} {w h : ℕ} (hh : 0 < h) (hg : RectGrid g w h)
    (cd : CircleDrawer) (centerX centerY : ℤ) (radius : ℝ) (symbol : Char) :
    ∃ g', DrawCircle cd g centerX centerY radius symbol = some g' ∧
      RectGrid g' w h ∧ PreservesMarked g g' := by
  unfold DrawCircle
  exact foldlM_option_inv (fun gc => RectGrid gc w h ∧ PreservesMarked g gc) _ _ g
    ⟨hg, preservesMarked_refl g⟩
    (fun b' a hb' => by
      obtain ⟨g', h1, h2, h3⟩ := drawBlankStep_inv hh hb'.1 hb'.2 _ _ symbol
      exact ⟨g', h1, h2, h3⟩)

theorem drawFilledCircle_inv {g : Grid} {w h : ℕ} (hh : 0 < h) (hg : RectGrid g w h)
    (cd : CircleDrawer) (centerX centerY : ℤ) (radius : ℤ) (symbol : Char) :
    ∃ g', DrawFilledCircle cd g centerX centerY radius symbol = some g' ∧
      RectGrid g' w h := by
  unfold DrawFilledCircle
  exact foldlM_option_inv (fun gc => RectGrid gc w h) _ _ g hg
    (fun b' dy hb' =>
      foldlM_option_inv (fun gc => RectGrid gc w h) _ _ b' hb'
        (fun b'' dx hb'' => drawOverwriteStep_inv hh hb'' _ _ symbol))

theorem renderDebrisBelt_inv {g : Grid} {w h : ℕ} (hh : 0 < h) (hg : RectGrid g w h)
    (dbr : DebrisBeltRenderer) (centerX centerY : ℤ) (innerRadius outerRadius : ℝ)
    (angleStep rings : ℤ) (symbol : Char) :
    ∃ g', renderDebrisBelt dbr g centerX centerY innerRadius outerRadius
        angleStep rings symbol = some g' ∧ RectGrid g' w h ∧ PreservesMarked g g' := by
  unfold renderDebrisBelt
  exact foldlM_option_inv (fun gc => RectGrid gc w h ∧ PreservesMarked g gc) _ _ g
    ⟨hg, preservesMarked_refl g⟩
    (fun b' angle hb' =>
      foldlM_option_inv (fun gc => RectGrid gc w h ∧ PreservesMarked g gc) _ _ b' hb'
        (fun b'' i hb'' => by
          obtain ⟨g', h1, h2, h3⟩ := drawBlankStep_inv hh hb''.1 hb''.2 _ _ symbol
          exact ⟨g', h1, h2, h3⟩))

/-- C5: for every rectangular grid with at least one row and every center
coordinate (in-grid or not), radius and glyph, `DrawCircle` and
`DrawFilledCircle` never touch memory outside the `[0,width) × [0,height)`
grid: every sampled write is bounds-checked, so the call returns a grid of
unchanged dimensions instead of panicking, and out-of-grid samples are
silently discarded. -/
theorem circleDrawer_bounds_safe (cd : CircleDrawer) (g : Grid) (w h : ℕ)
    (centerX centerY : ℤ) (radius : ℝ) (intRadius : ℤ) (symbol : Char)
    (hg : RectGrid g w h) (hh : 0 < h) :
    (∃ g', DrawCircle cd g centerX centerY radius symbol = some g' ∧ RectGrid g' w h)
    ∧ (∃ g', DrawFilledCircle cd g centerX centerY intRadius symbol = some g' ∧
        RectGrid g' w h) := by
  constructor
  · obtain ⟨g', h1, h2, _⟩ := drawCircle_inv hh hg cd centerX centerY radius symbol
    exact ⟨g', h1, h2⟩
  · exact drawFilledCircle_inv hh hg cd centerX centerY intRadius symbol

/-- Witness for C5 at a concrete 1×1 grid. -/
theorem circleDrawer_bounds_safe_witness :
    RectGrid [[' ']] 1 1 ∧ 0 < 1 ∧
      ((∃ g', DrawCircle ⟨2⟩ [[' ']] 0 0 5 '◉' = some g' ∧ RectGrid g' 1 1)
        ∧ (∃ g', DrawFilledCircle ⟨2⟩ [[' ']] 0 0 2 '◉' = some g' ∧ RectGrid g' 1 1)) :=
  ⟨⟨rfl, by simp [RectGrid]⟩, Nat.one_pos,
    circleDrawer_bounds_safe ⟨2⟩ [[' ']] 1 1 0 0 5 2 '◉' ⟨rfl, by simp⟩ Nat.one_pos⟩

/-- C6: circle-outline drawing (orbit paths) and debris-belt stippling write
only into blank cells: every cell of a rectangular grid that is non-blank
before the call holds the same character after the call. -/
theorem blank_only_orbit_and_debris (cd : CircleDrawer) (dbr : DebrisBeltRenderer)
    (g : Grid) (w h : ℕ) (centerX centerY : ℤ) (radius innerRadius outerRadius : ℝ)
    (angleStep rings : ℤ) (symbol symbol2 : Char)
    (hg : RectGrid g w h) (hh : 0 < h) :
    (∃ g', DrawCircle cd g centerX centerY radius symbol = some g' ∧
        ∀ y x c, readCell g y x = some c → c ≠ ' ' → readCell g' y x = some c)
    ∧ (∃ g', renderDebrisBelt dbr g centerX centerY innerRadius outerRadius
          angleStep rings symbol2 = some g' ∧
        ∀ y x c, readCell g y x = some c → c ≠ ' ' → readCell g' y x = some c) := by
  constructor
  · obtain ⟨g', h1, _, h3⟩ := drawCircle_inv hh hg cd centerX centerY radius symbol
    exact ⟨g', h1, h3⟩
  · obtain ⟨g', h1, _, h3⟩ := renderDebrisBelt_inv hh hg dbr centerX centerY
      innerRadius outerRadius angleStep rings symbol2
    exact ⟨g', h1, h3⟩

/-- Witness for C6 at a concrete 2×2 grid holding one non-blank cell. -/
theorem blank_only_orbit_and_debris_witness :
    RectGrid [['A', ' '], [' ', ' ']] 2 2 ∧ 0 < 2 ∧
      ((∃ g', DrawCircle ⟨2⟩ [['A', ' '], [' ', ' ']] 1 1 1 '·' = some g' ∧
          ∀ y x c, readCell [['A', ' '], [' ', ' ']] y x = some c → c ≠ ' ' →
            readCell g' y x = some c)
        ∧ (∃ g', renderDebrisBelt ⟨⟨2⟩, ⟨80, 24⟩⟩ [['A', ' '], [' ', ' ']] 1 1 1 2 10 3
              '∗' = some g' ∧
            ∀ y x c, readCell [['A', ' '], [' ', ' ']] y x = some c → c ≠ ' ' →
              readCell g' y x = some c)) :=
  ⟨⟨rfl, by simp [RectGrid]⟩, Nat.succ_pos 1,
    blank_only_orbit_and_debris ⟨2⟩ ⟨⟨2⟩, ⟨80, 24⟩⟩ [['A', ' '], [' ', ' ']] 2 2 1 1 1 1 2
      10 3 '·' '∗' ⟨rfl, by simp⟩ (Nat.succ_pos 1)⟩

/-! ## Angle-calculation theorems -/

theorem degScaled_bounds {d : ℝ} (h0 : 0 < d) (h360 : d < 360) :
    0 < d * π / 180 ∧ d * π / 180 < 2 * π := by
  constructor
  · positivity
  · have h2 : d * π / 180 = (d / 180) * π := by ring
    rw [h2]
    have hd : d / 180 < 2 := by linarith
    exact mul_lt_mul_of_pos_right hd Real.pi_pos

theorem j2000_bounds {name : String} {m0 : ℝ}
    (h : j2000MeanAnomalies name = some m0) : 0 < m0 ∧ m0 < 2 * π := by
  unfold j2000MeanAnomalies at h
  split_ifs at h <;>
    first
      | · obtain rfl := (Option.some.inj h).symm
          exact degScaled_bounds (by norm_num) (by norm_num)
      | exact absurd h (by simp)

theorem twoPi_pos : (0 : ℝ) < 2 * π := by positivity

theorem genericCalc_mem_Ioo (gc : GenericCalculator) (body : CelestialBody)
    (t : ℝ) : GenericCalculator.CalculateMeanAnomaly gc body t ∈
      Set.Ioo (-(2 * π)) (2 * π) := by
  unfold GenericCalculator.CalculateMeanAnomaly genericInitialAngle
  split_ifs <;> exact goMod_mem_Ioo twoPi_pos

theorem solarCalc_mem_Ioo (sc : SolarSystemCalculator) (body : CelestialBody)
    (t : ℝ) : SolarSystemCalculator.CalculateMeanAnomaly sc body t ∈
      Set.Ioo (-(2 * π)) (2 * π) := by
  unfold SolarSystemCalculator.CalculateMeanAnomaly
  rcases hm : j2000MeanAnomalies body.englishName with _ | m0
  · exact genericCalc_mem_Ioo ⟨sc.epochTime⟩ body t
  · obtain ⟨h0, h2⟩ := j2000_bounds hm
    dsimp only
    split_ifs
    · exact ⟨by linarith [twoPi_pos], h2⟩
    · exact goMod_mem_Ioo twoPi_pos

theorem getOrbitalAngle_mem_Ioo (cor : CelestialObjectRenderer)
    (planet : CelestialBody) (now : ℝ) :
    getOrbitalAngle cor planet now ∈ Set.Ioo (-(2 * π)) (2 * π) := by
  unfold getOrbitalAngle
  split_ifs
  · exact ⟨by linarith [twoPi_pos], twoPi_pos⟩
  · exact goMod_mem_Ioo twoPi_pos
  · exact goMod_mem_Ioo twoPi_pos

/-- Counterexample to C2: the generic calculator evaluated 5 days before its
process-start epoch returns a negative angle (`math.Mod` keeps the sign of
its dividend), refuting `angle ∈ [0, 2π)`. -/
theorem genericAnomaly_neg_before_epoch :
    GenericCalculator.CalculateMeanAnomaly ⟨0⟩ { sideralOrbit := 10 } (-5) < 0 := by
  have hgt : (3.14 : ℝ) < π := by linarith [Real.pi_gt_d6]
  have hlt : π < 3.15 := by linarith [Real.pi_lt_d2]
  have h2π : (0 : ℝ) < 2 * π := by linarith
  have hinit : genericInitialAngle { sideralOrbit := 10 } = 0.1745329 := by
    unfold genericInitialAngle genericSeed
    norm_num
    exact goMod_eq_self_of_nonneg (by norm_num) (by linarith)
  unfold GenericCalculator.CalculateMeanAnomaly
  rw [if_neg (by norm_num : ¬ (10 : ℝ) ≤ 0)]
  rw [hinit]
  have harg : (0.1745329 : ℝ) + 2 * π / 10 * (-5 - 0) = 0.1745329 - π := by ring
  rw [harg]
  rw [goMod_eq_self_of_neg h2π (by linarith) (by linarith)]
  linarith

/-- C2 (amended): every orbital-angle path — the generic calculator, the
Sol-system calculator and the renderer's `getOrbitalAngle` — returns a value
in the open interval `(-2π, 2π)`; it is not guaranteed non-negative, because
Go's `math.Mod` keeps the dividend's sign for time instants before the
relevant epoch. -/
theorem meanAnomaly_range_amended :
    (∀ (gc : GenericCalculator) (body : CelestialBody) (t : ℝ),
      GenericCalculator.CalculateMeanAnomaly gc body t ∈ Set.Ioo (-(2 * π)) (2 * π))
    ∧ (∀ (sc : SolarSystemCalculator) (body : CelestialBody) (t : ℝ),
      SolarSystemCalculator.CalculateMeanAnomaly sc body t ∈ Set.Ioo (-(2 * π)) (2 * π))
    ∧ (∀ (cor : CelestialObjectRenderer) (planet : CelestialBody) (now : ℝ),
      getOrbitalAngle cor planet now ∈ Set.Ioo (-(2 * π)) (2 * π)) :=
  ⟨genericCalc_mem_Ioo, solarCalc_mem_Ioo, getOrbitalAngle_mem_Ioo⟩

/-- Counterexample to C7: for a body with semimajor axis 10 and orbital
period 0, the renderer's `getOrbitalAngle` short-circuits to the constant
`0` before any strategy runs — not the seed-derived pseudo-initial angle
`math.Mod(10·0.01745329, 2π) = 0.1745329` that the claim names for the
generic strategy. -/
theorem getOrbitalAngle_not_seed_angle :
    getOrbitalAngle ⟨⟨2⟩, 0, 0, 80, 24⟩
        { semimajorAxis := 10, sideralOrbit := 0 } 5 = 0
    ∧ genericInitialAngle { semimajorAxis := 10, sideralOrbit := 0 } = 0.1745329
    ∧ (0.1745329 : ℝ) ≠ 0 := by
  refine ⟨?_, ?_, by norm_num⟩
  · unfold getOrbitalAngle
    rw [if_pos (le_refl 0)]
  · have hgt : (3.14 : ℝ) < π := by linarith [Real.pi_gt_d6]
    unfold genericInitialAngle genericSeed
    norm_num
    exact goMod_eq_self_of_nonneg (by norm_num) (by linarith)

/-- C7 (amended): for orbital period ≤ 0 each calculator strategy returns
its fixed angle with no time advancement — the seed-derived pseudo-initial
angle (generic), the tabulated J2000.0 anomaly (Sol-system), the recorded
epoch anomaly reduced mod 2π (exact elements) — while the renderer's
`getOrbitalAngle` short-circuits to the constant `0` before any strategy is
selected; in every path the result is the same constant at every time
instant. -/
theorem period_nonpos_constant_angle :
    (∀ (gc : GenericCalculator) (body : CelestialBody) (t : ℝ),
      body.sideralOrbit ≤ 0 →
        GenericCalculator.CalculateMeanAnomaly gc body t = genericInitialAngle body)
    ∧ (∀ (sc : SolarSystemCalculator) (body : CelestialBody) (t m0 : ℝ),
      body.sideralOrbit ≤ 0 → j2000MeanAnomalies body.englishName = some m0 →
        SolarSystemCalculator.CalculateMeanAnomaly sc body t = m0)
    ∧ (∀ (body : CelestialBody) (t : ℝ) (oe : OrbitalElement),
      body.sideralOrbit ≤ 0 → body.orbitalElements = some oe →
        ExactCalculator.CalculateMeanAnomaly body t =
          goMod (oe.meanAnomaly * π / 180) (2 * π))
    ∧ (∀ (cor : CelestialObjectRenderer) (body : CelestialBody) (t : ℝ),
      body.sideralOrbit ≤ 0 → getOrbitalAngle cor body t = 0) := by
  refine ⟨?_, ?_, ?_, ?_⟩
  · intro gc body t h
    simp [GenericCalculator.CalculateMeanAnomaly, h]
  · intro sc body t m0 h hm
    unfold SolarSystemCalculator.CalculateMeanAnomaly
    rw [hm]
    simp [h]
  · intro body t oe h hoe
    unfold ExactCalculator.CalculateMeanAnomaly
    rw [hoe]
    simp [h]
  · intro cor body t h
    simp [getOrbitalAngle, h]

/-- Witness for C7 at concrete bodies with orbital period 0, evaluated at
two different time instants per path. -/
theorem period_nonpos_constant_angle_witness :
    (({ sideralOrbit := 0 } : CelestialBody).sideralOrbit ≤ 0
      ∧ GenericCalculator.CalculateMeanAnomaly ⟨0⟩ { sideralOrbit := 0 } 5
          = genericInitialAngle { sideralOrbit := 0 }
      ∧ GenericCalculator.CalculateMeanAnomaly ⟨0⟩ { sideralOrbit := 0 } 77
          = genericInitialAngle { sideralOrbit := 0 })
    ∧ (j2000MeanAnomalies "Mercury" = some (174.7948 * π / 180)
      ∧ SolarSystemCalculator.CalculateMeanAnomaly ⟨0⟩ { englishName := "Mercury" } 5
          = 174.7948 * π / 180)
    ∧ ExactCalculator.CalculateMeanAnomaly { orbitalElements := some ⟨90, 0⟩ } 5
        = goMod ((90 : ℝ) * π / 180) (2 * π)
    ∧ getOrbitalAngle ⟨⟨2⟩, 0, 0, 80, 24⟩ { sideralOrbit := 0 } 5 = 0 :=
  ⟨⟨le_refl 0,
    period_nonpos_constant_angle.1 ⟨0⟩ { sideralOrbit := 0 } 5 (le_refl 0),
    period_nonpos_constant_angle.1 ⟨0⟩ { sideralOrbit := 0 } 77 (le_refl 0)⟩,
   ⟨by simp [j2000MeanAnomalies],
    period_nonpos_constant_angle.2.1 ⟨0⟩ { englishName := "Mercury" } 5 _ (le_refl 0)
      (by simp [j2000MeanAnomalies])⟩,
   period_nonpos_constant_angle.2.2.1 { orbitalElements := some ⟨90, 0⟩ } 5 ⟨90, 0⟩
     (le_refl 0) rfl,
   period_nonpos_constant_angle.2.2.2 ⟨⟨2⟩, 0, 0, 80, 24⟩ { sideralOrbit := 0 } 5
     (le_refl 0)⟩

/-! ## Compositor theorems (C8) -/

theorem renderPlanetsLoop_filter (r : Renderer) (centerX centerY : ℤ)
    (rangePlanets : List CelestialBody) (now : ℝ) :
    ∀ (iter : List CelestialBody) (grid : Grid),
      renderPlanetsLoop r centerX centerY rangePlanets iter now grid
        = renderPlanetsLoop r centerX centerY rangePlanets
            (iter.filter fun p => decide (0 < p.semimajorAxis)) now grid := by
  intro iter
  induction iter with
  | nil => intro grid; rfl
  | cons p rest ih =>
      intro grid
      by_cases hp : p.semimajorAxis ≤ 0
      · have hfilter : ((p :: rest).filter fun q => decide (0 < q.semimajorAxis))
            = rest.filter fun q => decide (0 < q.semimajorAxis) := by
          rw [List.filter_cons]
          simp [not_lt.mpr hp]
        rw [hfilter]
        unfold renderPlanetsLoop
        rw [List.foldlM_cons]
        have hstep : renderPlanetStep r centerX centerY rangePlanets now grid p
            = some grid := by
          simp [renderPlanetStep, hp]
        rw [hstep]
        simpa using ih grid
      · have hfilter : ((p :: rest).filter fun q => decide (0 < q.semimajorAxis))
            = p :: rest.filter fun q => decide (0 < q.semimajorAxis) := by
          rw [List.filter_cons]
          simp [not_le.mp hp]
        rw [hfilter]
        unfold renderPlanetsLoop
        rw [List.foldlM_cons, List.foldlM_cons]
        rcases hstep : renderPlanetStep r centerX centerY rangePlanets now grid p
          with _ | grid2
        · simp
        · simpa using ih grid2

theorem renderPlanetsLoopPos_filter (r : Renderer) (centerX centerY : ℤ)
    (rangePlanets : List CelestialBody) (now : ℝ) :
    ∀ (iter : List CelestialBody) (st : Grid × List (String × PlanetPosition)),
      renderPlanetsLoopPos r centerX centerY rangePlanets iter now st
        = renderPlanetsLoopPos r centerX centerY rangePlanets
            (iter.filter fun p => decide (0 < p.semimajorAxis)) now st := by
  intro iter
  induction iter with
  | nil => intro st; rfl
  | cons p rest ih =>
      intro st
      by_cases hp : p.semimajorAxis ≤ 0
      · have hfilter : ((p :: rest).filter fun q => decide (0 < q.semimajorAxis))
            = rest.filter fun q => decide (0 < q.semimajorAxis) := by
          rw [List.filter_cons]
          simp [not_lt.mpr hp]
        rw [hfilter]
        unfold renderPlanetsLoopPos
        rw [List.foldlM_cons]
        have hstep : renderPlanetStepPos r centerX centerY rangePlanets now st p
            = some st := by
          simp [renderPlanetStepPos, hp]
        rw [hstep]
        simpa using ih st
      · have hfilter : ((p :: rest).filter fun q => decide (0 < q.semimajorAxis))
            = p :: rest.filter fun q => decide (0 < q.semimajorAxis) := by
          rw [List.filter_cons]
          simp [not_le.mp hp]
        rw [hfilter]
        unfold renderPlanetsLoopPos
        rw [List.foldlM_cons, List.foldlM_cons]
        rcases hstep : renderPlanetStepPos r centerX centerY rangePlanets now st p
          with _ | st2
        · simp
        · simpa using ih st2

/-- C8: the compositor's planet loops (plain and position-recording) are
unchanged when every body without a strictly positive semimajor axis is
dropped from the iterated list: a planet with semimajor axis 0 is never
scaled, never given an angle, never rasterized as orbit ring or disc, and
contributes no position entry. -/
theorem axis_zero_never_orbit_rendered (r : Renderer) (centerX centerY : ℤ)
    (rangePlanets iter : List CelestialBody) (now : ℝ) (grid : Grid)
    (st : Grid × List (String × PlanetPosition)) :
    renderPlanetsLoop r centerX centerY rangePlanets iter now grid
      = renderPlanetsLoop r centerX centerY rangePlanets
          (iter.filter fun p => decide (0 < p.semimajorAxis)) now grid
    ∧ renderPlanetsLoopPos r centerX centerY rangePlanets iter now st
      = renderPlanetsLoopPos r centerX centerY rangePlanets
          (iter.filter fun p => decide (0 < p.semimajorAxis)) now st :=
  ⟨renderPlanetsLoop_filter r centerX centerY rangePlanets now iter grid,
   renderPlanetsLoopPos_filter r centerX centerY rangePlanets now iter st⟩

/-! ## Distance-scaler theorems (C1, C4) -/

/-- C1 (failing input): with a body set whose computed minimum and maximum
semimajor axes coincide — here a single body with axis 100 — `ScaleDistance`
divides by `ln(max) - ln(min) = 0` and produces a non-finite value (`none`),
not a fixed radius: the guard demanded by the specification is absent from
the source. -/
theorem scaleDistance_min_eq_max_divzero :
    ScaleDistance ⟨80, 24⟩ 100 [{ englishName := "Exo-b", semimajorAxis := 100 }]
      = none := by
  have hrange : findDistanceRange ⟨80, 24⟩
      [{ englishName := "Exo-b", semimajorAxis := 100 }] = (100, 100) := by
    unfold findDistanceRange findRangeFold
    norm_num
    rw [if_neg (by decide : ¬ "Exo-b" = "Sun")]
  unfold ScaleDistance
  rw [if_neg (by norm_num : ¬ (100 : ℝ) ≤ 0), hrange]
  simp

theorem scaleDistance_eval (ds : DistanceScaler) (planets : List CelestialBody)
    (dmin dmax d : ℝ) (hr : findDistanceRange ds planets = (dmin, dmax))
    (hd : 0 < d) (hne : Real.log dmax - Real.log dmin ≠ 0) :
    ScaleDistance ds d planets = some (scaleMinRadius +
      ((Real.log d - Real.log dmin) / (Real.log dmax - Real.log dmin)) *
        (scaleMaxRadius ds - scaleMinRadius)) := by
  unfold ScaleDistance
  rw [if_neg (not_le.mpr hd), hr]
  dsimp only
  rw [if_neg hne]

/-- C4 (amended): over a sampled range with `minDistance < maxDistance`, and
provided the viewport is large enough that the derived maximum radius
exceeds the fixed minimum radius 8 (otherwise the interpolation inverts),
`ScaleDistance` maps `minDistance` to exactly the minimum radius,
`maxDistance` to exactly the viewport-derived maximum radius, and is
strictly increasing between them. -/
theorem scaleDistance_monotone_amended (ds : DistanceScaler)
    (planets : List CelestialBody) (dmin dmax d1 d2 : ℝ)
    (hr : findDistanceRange ds planets = (dmin, dmax))
    (h0 : 0 < dmin) (hlt : dmin < dmax)
    (hmax : scaleMinRadius < scaleMaxRadius ds)
    (h1 : dmin ≤ d1) (h12 : d1 < d2) (h2 : d2 ≤ dmax) :
    ScaleDistance ds dmin planets = some scaleMinRadius
    ∧ ScaleDistance ds dmax planets = some (scaleMaxRadius ds)
    ∧ ∃ r1 r2, ScaleDistance ds d1 planets = some r1
        ∧ ScaleDistance ds d2 planets = some r2 ∧ r1 < r2 := by
  have hlog : Real.log dmin < Real.log dmax := Real.log_lt_log h0 hlt
  have hdenom : 0 < Real.log dmax - Real.log dmin := sub_pos.mpr hlog
  have hne : Real.log dmax - Real.log dmin ≠ 0 := ne_of_gt hdenom
  refine ⟨?_, ?_, ?_⟩
  · rw [scaleDistance_eval ds planets dmin dmax dmin hr h0 hne]
    rw [sub_self, zero_div, zero_mul, add_zero]
  · rw [scaleDistance_eval ds planets dmin dmax dmax hr (h0.trans hlt) hne]
    rw [div_self hne, one_mul]
    norm_num
  · have hd1 : 0 < d1 := lt_of_lt_of_le h0 h1
    have hd2 : 0 < d2 := hd1.trans h12
    refine ⟨_, _, scaleDistance_eval ds planets dmin dmax d1 hr hd1 hne,
      scaleDistance_eval ds planets dmin dmax d2 hr hd2 hne, ?_⟩
    have hlog12 : Real.log d1 < Real.log d2 := Real.log_lt_log hd1 h12
    have hspan : 0 < scaleMaxRadius ds - scaleMinRadius := sub_pos.mpr hmax
    have hfrac : (Real.log d1 - Real.log dmin) / (Real.log dmax - Real.log dmin)
        < (Real.log d2 - Real.log dmin) / (Real.log dmax - Real.log dmin) := by
      apply div_lt_div_of_pos_right ?_ hdenom
      · linarith
    have := mul_lt_mul_of_pos_right hfrac hspan
    linarith

/-- Witness for C4 at an 80×24 viewport and a two-body set with axes 10 and
1000. -/
theorem scaleDistance_monotone_amended_witness :
    findDistanceRange ⟨80, 24⟩
        [{ englishName := "a", semimajorAxis := 10 },
         { englishName := "b", semimajorAxis := 1000 }] = (10, 1000)
    ∧ (0 : ℝ) < 10 ∧ (10 : ℝ) < 1000
    ∧ scaleMinRadius < scaleMaxRadius ⟨80, 24⟩
    ∧ (ScaleDistance ⟨80, 24⟩ 10
          [{ englishName := "a", semimajorAxis := 10 },
           { englishName := "b", semimajorAxis := 1000 }] = some scaleMinRadius
      ∧ ScaleDistance ⟨80, 24⟩ 1000
          [{ englishName := "a", semimajorAxis := 10 },
           { englishName := "b", semimajorAxis := 1000 }] = some (scaleMaxRadius ⟨80, 24⟩)
      ∧ ∃ r1 r2, ScaleDistance ⟨80, 24⟩ 10
            [{ englishName := "a", semimajorAxis := 10 },
             { englishName := "b", semimajorAxis := 1000 }] = some r1
          ∧ ScaleDistance ⟨80, 24⟩ 1000
              [{ englishName := "a", semimajorAxis := 10 },
               { englishName := "b", semimajorAxis := 1000 }] = some r2 ∧ r1 < r2) :=
  have hrange : findDistanceRange ⟨80, 24⟩
      [{ englishName := "a", semimajorAxis := 10 },
       { englishName := "b", semimajorAxis := 1000 }] = (10, 1000) := by
    unfold findDistanceRange findRangeFold
    norm_num
    rw [if_neg (by decide : ¬ "b" = "Sun"), if_neg (by decide : ¬ "a" = "Sun")]
    norm_num
  have hmax : scaleMinRadius < scaleMaxRadius ⟨80, 24⟩ := by
    unfold scaleMinRadius scaleMaxRadius
    norm_num [min_def]
  ⟨hrange, by norm_num, by norm_num, hmax,
    scaleDistance_monotone_amended ⟨80, 24⟩ _ 10 1000 10 1000 hrange
      (by norm_num) (by norm_num) hmax (by norm_num) (by norm_num) (by norm_num)⟩

/-- Counterexample to C4: on a degenerate 8×8 viewport the derived maximum
radius is 0.95 < 8, so the interpolation is strictly decreasing —
`ScaleDistance` maps the smaller distance 10 to radius 8 and the larger
distance 1000 to radius 0.95. -/
theorem scaleDistance_not_monotone_small_viewport :
    ScaleDistance ⟨8, 8⟩ 10
        [{ englishName := "a", semimajorAxis := 10 },
         { englishName := "b", semimajorAxis := 1000 }] = some 8
    ∧ ScaleDistance ⟨8, 8⟩ 1000
        [{ englishName := "a", semimajorAxis := 10 },
         { englishName := "b", semimajorAxis := 1000 }] = some 0.95
    ∧ (0.95 : ℝ) < 8 := by
  have hrange : findDistanceRange ⟨8, 8⟩
      [{ englishName := "a", semimajorAxis := 10 },
       { englishName := "b", semimajorAxis := 1000 }] = (10, 1000) := by
    unfold findDistanceRange findRangeFold
    norm_num
    rw [if_neg (by decide : ¬ "b" = "Sun"), if_neg (by decide : ¬ "a" = "Sun")]
    norm_num
  have hne : Real.log 1000 - Real.log 10 ≠ 0 :=
    ne_of_gt (sub_pos.mpr (Real.log_lt_log (by norm_num) (by norm_num)))
  refine ⟨?_, ?_, by norm_num⟩
  · rw [scaleDistance_eval ⟨8, 8⟩ _ 10 1000 10 hrange (by norm_num) hne]
    rw [sub_self, zero_div, zero_mul, add_zero]
    unfold scaleMinRadius
    norm_num
  · rw [scaleDistance_eval ⟨8, 8⟩ _ 10 1000 1000 hrange (by norm_num) hne]
    rw [div_self hne, one_mul]
    unfold scaleMinRadius scaleMaxRadius
    norm_num [min_def]

/-! ## Binary-star theorems (C3) -/

theorem getStarMass_pos (cor : CelestialObjectRenderer) (star : CelestialBody) :
    0 < getStarMass cor star := by
  unfold getStarMass
  split_ifs with h1 h2
  · exact mul_pos h1 (Real.rpow_pos_of_pos (by norm_num) _)
  · have hb : (0 : ℝ) < star.meanRadius / 695700 := div_pos h2 (by norm_num)
    have hs : (0 : ℝ) < solarMassKg := by norm_num [solarMassKg]
    exact mul_pos (Real.rpow_pos_of_pos hb _) hs
  · norm_num [solarMassKg]

theorem calculateBinarySeparation_pos (cor : CelestialObjectRenderer)
    (stars : List CelestialBody) : 0 < calculateBinarySeparation cor stars :=
  lt_of_lt_of_le (by norm_num) (le_max_right (6 * getTerminalSizeFactor cor) 6)

/-- C3: for two stars, the computed barycenter distances are
`r1 = separation · m2/(m1+m2)` and `r2 = separation · m1/(m1+m2)` with the
masses taken from `getStarMass` (recorded mass, else the `(R/R_sun)^2.5`
estimate, else one solar mass); equal masses put the stars at equal,
opposite integer displacements from the center at every time instant, and
for `m1 > m2` the heavier star's distance from the center is strictly
smaller. -/
theorem binaryStar_barycenter (cor : CelestialObjectRenderer)
    (s1 s2 : CelestialBody) (centerX centerY : ℤ) (now : ℝ) :
    binaryR1 cor s1 s2 = calculateBinarySeparation cor [s1, s2] *
        (getStarMass cor s2 / (getStarMass cor s1 + getStarMass cor s2))
    ∧ binaryR2 cor s1 s2 = calculateBinarySeparation cor [s1, s2] *
        (getStarMass cor s1 / (getStarMass cor s1 + getStarMass cor s2))
    ∧ (getStarMass cor s1 = getStarMass cor s2 →
        ∃ dx dy : ℤ, calculateBinaryStarPositions cor [s1, s2] centerX centerY now
          = [⟨centerX + dx, centerY + dy⟩, ⟨centerX - dx, centerY - dy⟩])
    ∧ (getStarMass cor s2 < getStarMass cor s1 →
        binaryR1 cor s1 s2 < binaryR2 cor s1 s2) := by
  refine ⟨rfl, rfl, ?_, ?_⟩
  · intro heq
    refine ⟨goInt (binaryR1 cor s1 s2 * Real.cos (binaryAngle cor s1 s2 now)),
      goInt (binaryR1 cor s1 s2 * Real.sin (binaryAngle cor s1 s2 now) * 0.5), ?_⟩
    have hr : binaryR2 cor s1 s2 = binaryR1 cor s1 s2 := by
      unfold binaryR1 binaryR2
      rw [heq]
    unfold calculateBinaryStarPositions
    dsimp only
    rw [hr]
  · intro hlt
    have hm1 : 0 < getStarMass cor s1 := getStarMass_pos cor s1
    have hm2 : 0 < getStarMass cor s2 := getStarMass_pos cor s2
    unfold binaryR1 binaryR2
    apply mul_lt_mul_of_pos_left ?_ (calculateBinarySeparation_pos cor [s1, s2])
    exact div_lt_div_of_pos_right hlt (by linarith)

/-- Witness for C3: an equal-mass pair (twice the same 2·10³⁰ kg star) and
an unequal pair (2·10³⁰ kg vs 1·10³⁰ kg). -/
theorem binaryStar_barycenter_witness :
    (getStarMass ⟨⟨2⟩, 0, 0, 80, 24⟩ { mass := ⟨2, 30⟩ }
        = getStarMass ⟨⟨2⟩, 0, 0, 80, 24⟩ { mass := ⟨2, 30⟩ }
      ∧ ∃ dx dy : ℤ, calculateBinaryStarPositions ⟨⟨2⟩, 0, 0, 80, 24⟩
            [{ mass := ⟨2, 30⟩ }, { mass := ⟨2, 30⟩ }] 40 12 3
          = [⟨40 + dx, 12 + dy⟩, ⟨40 - dx, 12 - dy⟩])
    ∧ (getStarMass ⟨⟨2⟩, 0, 0, 80, 24⟩ { mass := ⟨1, 30⟩ }
          < getStarMass ⟨⟨2⟩, 0, 0, 80, 24⟩ { mass := ⟨2, 30⟩ }
      ∧ binaryR1 ⟨⟨2⟩, 0, 0, 80, 24⟩ { mass := ⟨2, 30⟩ } { mass := ⟨1, 30⟩ }
          < binaryR2 ⟨⟨2⟩, 0, 0, 80, 24⟩ { mass := ⟨2, 30⟩ } { mass := ⟨1, 30⟩ }) :=
  have hmass : getStarMass ⟨⟨2⟩, 0, 0, 80, 24⟩ { mass := ⟨1, 30⟩ }
      < getStarMass ⟨⟨2⟩, 0, 0, 80, 24⟩ { mass := ⟨2, 30⟩ } := by
    unfold getStarMass
    rw [if_pos (by norm_num : (1 : ℝ) > 0), if_pos (by norm_num : (2 : ℝ) > 0)]
    show (1 : ℝ) * (10 : ℝ) ^ (((30 : ℤ)) : ℝ) < (2 : ℝ) * (10 : ℝ) ^ (((30 : ℤ)) : ℝ)
    have hp : (0 : ℝ) < (10 : ℝ) ^ (((30 : ℤ)) : ℝ) :=
      Real.rpow_pos_of_pos (by norm_num) _
    nlinarith
  ⟨⟨rfl, (binaryStar_barycenter ⟨⟨2⟩, 0, 0, 80, 24⟩ { mass := ⟨2, 30⟩ }
      { mass := ⟨2, 30⟩ } 40 12 3).2.2.1 rfl⟩,
   hmass, (binaryStar_barycenter ⟨⟨2⟩, 0, 0, 80, 24⟩ { mass := ⟨2, 30⟩ }
      { mass := ⟨1, 30⟩ } 0 0 1).2.2.2 hmass⟩

/-! ## Stellar classification and glyph theorems (C9, C10) -/

theorem string_toList_nil {s : String} (h : s.toList = []) : s = "" := by
  cases s with
  | mk data =>
      simp [String.toList] at h
      simp [h]

theorem getStellarClass_cases (cor : CelestialObjectRenderer)
    (star : CelestialBody) :
    (getStellarClass cor star = star.stellarClass ∧ star.stellarClass ≠ "")
    ∨ getStellarClass cor star ∈
        (["O5V", "B5V", "A5V", "F5V", "G5V", "K5V", "M5V"] : List String) := by
  unfold getStellarClass
  by_cases h1 : star.stellarClass ≠ ""
  · rw [if_pos h1]
    exact Or.inl ⟨rfl, h1⟩
  · rw [if_neg h1]
    right
    by_cases h2 : star.temperature > 0
    · rw [if_pos h2]
      unfold classifyByTemperature
      split_ifs <;> decide
    · rw [if_neg h2]
      dsimp only
      split_ifs <;> decide

theorem getStellarClass_ne_empty (cor : CelestialObjectRenderer)
    (star : CelestialBody) : getStellarClass cor star ≠ "" := by
  rcases getStellarClass_cases cor star with ⟨heq, hn⟩ | hmem
  · rw [heq]
    exact hn
  · simp at hmem
    rcases hmem with h | h | h | h | h | h | h <;> rw [h] <;> decide

theorem getStarSymbol_match (cor : CelestialObjectRenderer) (star : CelestialBody)
    (c : Char) (cs : List Char)
    (hlist : (getStellarClass cor star).toList = c :: cs) :
    getStarSymbol cor star = some (if c = 'O' ∨ c = 'B' then '✦'
      else if c = 'A' ∨ c = 'F' then '✧'
      else if c = 'G' then '☉'
      else if c = 'K' then '✩'
      else if c = 'M' then '✪'
      else if star.englishName = "Sun" then '☉'
      else '⭐') := by
  unfold getStarSymbol
  rw [hlist]

/-- Counterexample to C10: a star whose recorded stellar class is `"D"`
(a white dwarf) keeps that class verbatim, so the first character of the
classification result is not one of O, B, A, F, G, K, M. -/
theorem stellarClass_first_char_outside_table :
    getStellarClass ⟨⟨2⟩, 0, 0, 80, 24⟩ { stellarClass := "D" } = "D"
    ∧ ('D' : Char) ∉ (['O', 'B', 'A', 'F', 'G', 'K', 'M'] : List Char) := by
  constructor
  · unfold getStellarClass
    rw [if_pos (by decide : ("D" : String) ≠ "")]
  · decide

/-- C10 (amended): for every celestial body the stellar-classification
helper returns a non-empty string — the recorded class verbatim when one is
present, otherwise a generated class whose first character is one of
O, B, A, F, G, K, M — so the first-character inspection in the star-glyph
selection is always in bounds and glyph selection is total, returning one of
the six star glyphs. -/
theorem stellarClass_total_amended (cor : CelestialObjectRenderer)
    (star : CelestialBody) :
    getStellarClass cor star ≠ ""
    ∧ (star.stellarClass = "" →
        (getStellarClass cor star).toList.headD ' ' ∈
          (['O', 'B', 'A', 'F', 'G', 'K', 'M'] : List Char))
    ∧ ∃ c, getStarSymbol cor star = some c ∧
        c ∈ (['✦', '✧', '☉', '✩', '✪', '⭐'] : List Char) := by
  refine ⟨getStellarClass_ne_empty cor star, ?_, ?_⟩
  · intro hrec
    rcases getStellarClass_cases cor star with ⟨heq, hn⟩ | hmem
    · exact absurd hrec hn
    · simp at hmem
      rcases hmem with h | h | h | h | h | h | h <;> rw [h] <;> decide
  · rcases hl : (getStellarClass cor star).toList with _ | ⟨c, cs⟩
    · exact absurd (string_toList_nil hl) (getStellarClass_ne_empty cor star)
    · rw [getStarSymbol_match cor star c cs hl]
      refine ⟨_, rfl, ?_⟩
      split_ifs <;> decide

/-- Witness for C10 at a star with no stellar data at all. -/
theorem stellarClass_total_amended_witness :
    (({} : CelestialBody).stellarClass = ""
      ∧ getStellarClass ⟨⟨2⟩, 0, 0, 80, 24⟩ ({} : CelestialBody) ≠ ""
      ∧ (getStellarClass ⟨⟨2⟩, 0, 0, 80, 24⟩ ({} : CelestialBody)).toList.headD ' ' ∈
          (['O', 'B', 'A', 'F', 'G', 'K', 'M'] : List Char))
    ∧ ∃ c, getStarSymbol ⟨⟨2⟩, 0, 0, 80, 24⟩ ({} : CelestialBody) = some c ∧
        c ∈ (['✦', '✧', '☉', '✩', '✪', '⭐'] : List Char) :=
  have h := stellarClass_total_amended ⟨⟨2⟩, 0, 0, 80, 24⟩ ({} : CelestialBody)
  ⟨⟨rfl, h.1, h.2.1 rfl⟩, h.2.2⟩

theorem blankStar_mass (cor : CelestialObjectRenderer) {star : CelestialBody}
    (h3 : star.mass.massValue ≤ 0) (h4 : star.meanRadius ≤ 0) :
    getStarMass cor star = solarMassKg := by
  unfold getStarMass
  rw [if_neg (not_lt.mpr h3), if_neg (not_lt.mpr h4)]

theorem blankStar_class (cor : CelestialObjectRenderer) {star : CelestialBody}
    (h1 : star.stellarClass = "") (h2 : star.temperature ≤ 0)
    (h3 : star.mass.massValue ≤ 0) (h4 : star.meanRadius ≤ 0) :
    getStellarClass cor star = "G5V" := by
  unfold getStellarClass
  rw [if_neg (by simp [h1]), if_neg (not_lt.mpr h2)]
  dsimp only
  rw [blankStar_mass cor h3 h4]
  rw [div_self (by norm_num [solarMassKg])]
  norm_num

/-- Counterexample to C9: a star with no stellar class recorded (and no
temperature, mass or radius either) is classified as `"G5V"` by the mass
fallback and receives the Sun-like glyph `'☉'` — not the generic star glyph
`'⭐'` the claim promises for unclassified stars. -/
theorem unclassified_star_not_generic_glyph :
    getStarSymbol ⟨⟨2⟩, 0, 0, 80, 24⟩ ({} : CelestialBody) = some '☉'
    ∧ ('☉' : Char) ≠ '⭐' := by
  have hclass : getStellarClass ⟨⟨2⟩, 0, 0, 80, 24⟩ ({} : CelestialBody) = "G5V" :=
    blankStar_class _ rfl (le_refl 0) (le_refl 0) (le_refl 0)
  constructor
  · rw [getStarSymbol_match _ _ 'G' ['5', 'V'] (by rw [hclass]; decide)]
    decide
  · decide

/-- C9 (amended): star-glyph assignment follows the spectral-class table on
the effective class's first character (O/B → '✦', A/F → '✧', G → '☉',
K → '✩', M → '✪'); a star with no recorded class is first classified by
temperature or mass — with all stellar data absent it gets class G and the
Sun-like glyph, and the generic glyph arises only from recorded classes
outside the table — and for any non-star name outside the fixed Sol-system
table the glyph is the palette entry selected by the stable name hash,
identically on every call. -/
theorem starGlyph_table_amended (cor : CelestialObjectRenderer)
    (star : CelestialBody) (name : String) (c : Char) (cs : List Char)
    (hlist : (getStellarClass cor star).toList = c :: cs)
    (hname : knownSymbols name = none) :
    (c = 'O' ∨ c = 'B' → getStarSymbol cor star = some '✦')
    ∧ (c = 'A' ∨ c = 'F' → getStarSymbol cor star = some '✧')
    ∧ (c = 'G' → getStarSymbol cor star = some '☉')
    ∧ (c = 'K' → getStarSymbol cor star = some '✩')
    ∧ (c = 'M' → getStarSymbol cor star = some '✪')
    ∧ (star.stellarClass = "" ∧ star.temperature ≤ 0 ∧ star.mass.massValue ≤ 0 ∧
        star.meanRadius ≤ 0 → getStarSymbol cor star = some '☉')
    ∧ GetPlanetSymbol name = genericSymbols.getD (nameHash name) ' ' := by
  refine ⟨?_, ?_, ?_, ?_, ?_, ?_, ?_⟩
  · intro h
    rw [getStarSymbol_match cor star c cs hlist]
    rcases h with rfl | rfl <;> rfl
  · intro h
    rw [getStarSymbol_match cor star c cs hlist]
    rcases h with rfl | rfl <;> rfl
  · intro h
    rw [getStarSymbol_match cor star c cs hlist]
    subst h
    rfl
  · intro h
    rw [getStarSymbol_match cor star c cs hlist]
    subst h
    rfl
  · intro h
    rw [getStarSymbol_match cor star c cs hlist]
    subst h
    rfl
  · rintro ⟨h1, h2, h3, h4⟩
    have hclass := blankStar_class cor h1 h2 h3 h4
    have hc : c = 'G' := by
      rw [hclass] at hlist
      have hGl : ("G5V" : String).toList = ['G', '5', 'V'] := by decide
      rw [hGl] at hlist
      exact (List.cons.inj hlist).1.symm
    rw [getStarSymbol_match cor star c cs hlist]
    subst hc
    rfl
  · unfold GetPlanetSymbol
    rw [hname]
    rfl

/-- Witness for C9: a recorded M-class star, a star with no stellar data,
and the unknown body name `"Kepler-22b"`. -/
theorem starGlyph_table_amended_witness :
    ((getStellarClass ⟨⟨2⟩, 0, 0, 80, 24⟩ { stellarClass := "M5V" }).toList
        = 'M' :: ['5', 'V']
      ∧ getStarSymbol ⟨⟨2⟩, 0, 0, 80, 24⟩ { stellarClass := "M5V" } = some '✪')
    ∧ ((getStellarClass ⟨⟨2⟩, 0, 0, 80, 24⟩ ({} : CelestialBody)).toList
        = 'G' :: ['5', 'V']
      ∧ getStarSymbol ⟨⟨2⟩, 0, 0, 80, 24⟩ ({} : CelestialBody) = some '☉')
    ∧ (knownSymbols "Kepler-22b" = none
      ∧ GetPlanetSymbol "Kepler-22b" = genericSymbols.getD (nameHash "Kepler-22b") ' ') := by
  have hm : getStellarClass ⟨⟨2⟩, 0, 0, 80, 24⟩ { stellarClass := "M5V" } = "M5V" := by
    unfold getStellarClass
    rw [if_pos (by decide : ("M5V" : String) ≠ "")]
  have hmlist : (getStellarClass ⟨⟨2⟩, 0, 0, 80, 24⟩
      { stellarClass := "M5V" }).toList = 'M' :: ['5', 'V'] := by
    rw [hm]
    decide
  have hg : getStellarClass ⟨⟨2⟩, 0, 0, 80, 24⟩ ({} : CelestialBody) = "G5V" :=
    blankStar_class _ rfl (le_refl 0) (le_refl 0) (le_refl 0)
  have hglist : (getStellarClass ⟨⟨2⟩, 0, 0, 80, 24⟩
      ({} : CelestialBody)).toList = 'G' :: ['5', 'V'] := by
    rw [hg]
    decide
  have hname : knownSymbols "Kepler-22b" = none := by decide
  exact ⟨⟨hmlist,
      (starGlyph_table_amended ⟨⟨2⟩, 0, 0, 80, 24⟩ { stellarClass := "M5V" }
        "Kepler-22b" 'M' ['5', 'V'] hmlist hname).2.2.2.2.1 rfl⟩,
    ⟨hglist,
      (starGlyph_table_amended ⟨⟨2⟩, 0, 0, 80, 24⟩ ({} : CelestialBody)
        "Kepler-22b" 'G' ['5', 'V'] hglist hname).2.2.2.2.2.1
        ⟨rfl, le_refl 0, le_refl 0, le_refl 0⟩⟩,
    hname,
    (starGlyph_table_amended ⟨⟨2⟩, 0, 0, 80, 24⟩ ({} : CelestialBody)
      "Kepler-22b" 'G' ['5', 'V'] hglist hname).2.2.2.2.2.2⟩

end SolarSim
